import Mathlib

/-
Verification of the plugin registry in `xblock/plugin.py`.

The embedding is a shallow one: Python classes become values of `PClass`
(identity plus method-resolution-order, so that `issubclass` is decidable),
entry points become `EntryPoint` records whose `load` field is the fixed
outcome of calling `entry_point.load()`, the process-wide `PLUGIN_CACHE`
dict and an instrumentation counter of `iter_entry_points` calls become the
explicit state `PState`, and exceptions become the `Err` sum returned in
`Except`.  Every operation also returns the final state, because a Python
exception propagates while leaving the mutated globals in place.

`pkg_resources.iter_entry_points` is the external discovery provider; it is
a parameter (`Env`).  The lazily-created per-class attribute
`extra_entry_points` (built with `class_lazy` from `xblock.internal`) is
modelled as a field of `Registry`, mutated by explicit state passing.
-/

set_option autoImplicit false

namespace XBlockPlugin

/-- A Python class object: an identity, the identities of itself and all of
its ancestors (so `issubclass` can be decided), its module and class names
(used in error messages), and the `plugin_name` attribute stamped by
`_load_class_entry_point`. -/
structure PClass where
  id : Nat
  mro : List Nat
  modName : String
  name : String
  pluginName : Option String
deriving DecidableEq, Repr

/-- Python `issubclass(a, b)`: `b`'s identity occurs in `a`'s
method-resolution order. -/
def issubclass (a b : PClass) : Bool :=
  b.id ∈ a.mro

instance exceptDecEq {ε α : Type} [DecidableEq ε] [DecidableEq α] :
    DecidableEq (Except ε α) := fun x y =>
  match x, y with
  | .ok a, .ok b =>
    if h : a = b then .isTrue (by rw [h])
    else .isFalse (fun hh => h (by injection hh))
  | .error a, .error b =>
    if h : a = b then .isTrue (by rw [h])
    else .isFalse (fun hh => h (by injection hh))
  | .ok _, .error _ => .isFalse (fun hh => Except.noConfusion hh)
  | .error _, .ok _ => .isFalse (fun hh => Except.noConfusion hh)

/-- A `pkg_resources.EntryPoint` as the core uses it: its `name`, its
distribution key, and the fixed outcome of calling `.load()` (either the
loaded class or the exception message the loader raises). -/
structure EntryPoint where
  name : String
  dist : String
  load : Except String PClass
deriving DecidableEq, Repr

/-- Exceptions the core raises.  `pluginMissing` is `PluginMissingError`
carrying the identifier; `ambiguous` is `AmbiguousPluginError`, which keeps
only its formatted message string; `typeError` is the `TypeError` from the
subclass check, carrying the calling class name, the identifier and the
found class name; `loadErr` is an exception propagated out of an entry
point loader. -/
inductive Err where
  | pluginMissing (identifier : String)
  | ambiguous (msg : String)
  | typeError (clsName identifier foundName : String)
  | loadErr (e : String)
deriving DecidableEq, Repr

/-- The mutable global state: `PLUGIN_CACHE` (an association list keyed by
`(entry_point, identifier)`) plus a counter of discovery-provider queries
(`iter_entry_points` calls made by `load_class`), which instruments the
code so that cache-hit claims are observable. -/
structure PState where
  cache : List ((String × String) × PClass)
  queries : Nat
deriving DecidableEq, Repr

/-- Python `str.lower()`, applied character by character.  (Stated over the
character list so that it evaluates inside the kernel.) -/
def lower (s : String) : String :=
  ⟨s.data.map Char.toLower⟩

/-- Dictionary lookup in the cache (first matching key wins, as in a
Python dict where each key occurs at most once). -/
def cacheGet (key : String × String) : List ((String × String) × PClass) → Option PClass
  | [] => none
  | (k, v) :: rest => if key = k then some v else cacheGet key rest

/-- The external discovery provider: `provider cat name` is
`iter_entry_points(cat, name=name)` and `providerAll cat` is
`iter_entry_points(cat)`. -/
structure Env where
  provider : String → String → List EntryPoint
  providerAll : String → List EntryPoint

/-- A `Plugin` subclass acting as a registry: the class object itself (for
the `issubclass` check), its `entry_point` attribute, and its
`extra_entry_points` list. -/
structure Registry where
  cls : PClass
  entry_point : String
  extra_entry_points : List (String × EntryPoint)
deriving DecidableEq, Repr

/-- Sequencing of `(entpt.load() for entpt in all_entry_points)` as consumed
by `", ".join`: loads run in order and the first failure propagates. -/
def sequence_loads : List EntryPoint → Except String (List PClass)
  | [] => .ok []
  | ep :: rest =>
    match ep.load with
    | .error e => .error e
    | .ok c =>
      match sequence_loads rest with
      | .error e => .error e
      | .ok cs => .ok (c :: cs)

/-- Constructing `AmbiguousPluginError(all_entry_points)`: every entry point
is loaded to build the diagnostic message; if a loader raises, that
exception escapes the constructor (`.error`), otherwise the result is the
`ambiguous` error holding only the formatted message. -/
def ambiguous_plugin_error (all_entry_points : List EntryPoint) : Except String Err :=
  match sequence_loads all_entry_points with
  | .error e => .error e
  | .ok classes =>
    .ok (.ambiguous ("Ambiguous entry points for "
      ++ (match all_entry_points with | [] => "" | ep :: _ => ep.name)
      ++ ": "
      ++ String.intercalate ", " (classes.map (fun c => c.modName ++ "." ++ c.name))))

/-- `default_select`: no entry points raises `PluginMissingError`, more than
one raises `AmbiguousPluginError` (whose construction may itself raise a
loader error), exactly one is returned. -/
def default_select (identifier : String) (all_entry_points : List EntryPoint) :
    Except Err EntryPoint :=
  match all_entry_points with
  | [] => .error (.pluginMissing identifier)
  | [ep] => .ok ep
  | eps =>
    match ambiguous_plugin_error eps with
    | .ok err => .error err
    | .error e => .error (.loadErr e)

/-- A selector as passed to `load_class`. -/
def Selector : Type :=
  String → List EntryPoint → Except Err EntryPoint

/-- `Plugin._load_class_entry_point`: load the entry point and stamp
`plugin_name` with the entry point's name on the loaded class. -/
def load_class_entry_point (ep : EntryPoint) : Except String PClass :=
  match ep.load with
  | .error e => .error e
  | .ok class_ => .ok { class_ with pluginName := some ep.name }

/-- The merged candidate list `load_class` builds for a normalized
identifier: the provider's name-filtered entry points followed by the
matching `extra_entry_points`. -/
def mergedCandidates (env : Env) (R : Registry) (idN : String) : List EntryPoint :=
  env.provider R.entry_point idN
    ++ (R.extra_entry_points.filter (fun p => idN = p.1)).map (fun p => p.2)

/-- `Plugin.load_class`: lower-case the identifier, serve from the cache if
the key is present (re-running the subclass check), otherwise query the
provider, merge extras, select (a `PluginMissingError` from the selector
falls back to `default` when one was supplied), load and stamp the selected
entry point, write the cache entry, and only then check `issubclass`. -/
def load_class (env : Env) (R : Registry) (identifier : String)
    (default : Option PClass) (select : Option Selector) (s : PState) :
    Except Err PClass × PState :=
  match cacheGet (R.entry_point, lower identifier) s.cache with
  | some result =>
    if issubclass result R.cls then (.ok result, s)
    else (.error (.typeError R.cls.name (lower identifier) result.name), s)
  | none =>
    match (select.getD default_select) (lower identifier)
        (mergedCandidates env R (lower identifier)) with
    | .error (.pluginMissing m) =>
      match default with
      | some d => (.ok d, { s with queries := s.queries + 1 })
      | none => (.error (.pluginMissing m), { s with queries := s.queries + 1 })
    | .error e => (.error e, { s with queries := s.queries + 1 })
    | .ok ep =>
      match load_class_entry_point ep with
      | .error e => (.error (.loadErr e), { s with queries := s.queries + 1 })
      | .ok class_ =>
        if issubclass class_ R.cls then
          (.ok class_,
           { s with queries := s.queries + 1,
                    cache := ((R.entry_point, lower identifier), class_) :: s.cache })
        else
          (.error (.typeError R.cls.name (lower identifier) class_.name),
           { s with queries := s.queries + 1,
                    cache := ((R.entry_point, lower identifier), class_) :: s.cache })

/-- The full candidate chain `load_classes` iterates: every provider entry
point of the category followed by every extra entry point. -/
def all_candidates (env : Env) (R : Registry) : List EntryPoint :=
  env.providerAll R.entry_point ++ R.extra_entry_points.map (fun p => p.2)

/-- The generator body of `Plugin.load_classes`: yield `(name, class)` per
candidate; on a load failure either skip the candidate (`fail_silently`) or
stop and propagate the exception.  The result is the list of yielded pairs
and the exception, if any, that ended the sequence. -/
def load_classes_go (fail_silently : Bool) :
    List EntryPoint → List (String × PClass) × Option String
  | [] => ([], none)
  | ep :: rest =>
    match load_class_entry_point ep with
    | .ok class_ =>
      let r := load_classes_go fail_silently rest
      ((ep.name, class_) :: r.1, r.2)
    | .error e =>
      if fail_silently then load_classes_go fail_silently rest
      else ([], some e)

/-- `Plugin.load_classes`. -/
def load_classes (env : Env) (R : Registry) (fail_silently : Bool) :
    List (String × PClass) × Option String :=
  load_classes_go fail_silently (all_candidates env R)

/-- `Plugin.register_temp_plugin`: derive the identifier (lower-cased class
name when none is given, the argument verbatim otherwise), build the mock
entry point, snapshot `extra_entry_points` and `PLUGIN_CACHE`, append the
extra entry, clear the cache, run the wrapped work, and restore both
snapshots in a `finally` — whether the work returned or raised. -/
def register_temp_plugin {α : Type} (class_ : PClass) (identifierOpt : Option String)
    (dist : String) (f : Registry → PState → Except Err α × Registry × PState)
    (R : Registry) (s : PState) : Except Err α × Registry × PState :=
  let identifier := match identifierOpt with
    | none => lower class_.name
    | some i => i
  let entry_point : EntryPoint := { name := identifier, dist := dist, load := .ok class_ }
  let old := R.extra_entry_points
  let old_cache := s.cache
  let r := f { R with extra_entry_points := R.extra_entry_points ++ [(identifier, entry_point)] }
             { s with cache := [] }
  (r.1, { r.2.1 with extra_entry_points := old }, { r.2.2 with cache := old_cache })

/-- A concrete registry class: identity 1, subclass of the `Plugin` base
(identity 0). -/
def regCls : PClass :=
  { id := 1, mro := [1, 0], modName := "test", name := "TestReg", pluginName := none }

/-- A concrete registry over category `cat` with no extras. -/
def reg0 : Registry :=
  { cls := regCls, entry_point := "cat", extra_entry_points := [] }

/-- The empty starting state: empty cache, no provider queries yet. -/
def s0 : PState :=
  { cache := [], queries := 0 }

/-- Concrete plugin class `A`, a subclass of the registry class. -/
def clsA : PClass :=
  { id := 10, mro := [10, 1, 0], modName := "test", name := "A", pluginName := none }

/-- Concrete plugin class `B`, a subclass of the registry class. -/
def clsB : PClass :=
  { id := 11, mro := [11, 1, 0], modName := "test", name := "B", pluginName := none }

/-- Concrete plugin class `Pre`, a subclass of the registry class, standing
for a candidate that exists in the provider before any override. -/
def clsPre : PClass :=
  { id := 12, mro := [12, 1, 0], modName := "test", name := "Pre", pluginName := none }

/-- Concrete plugin class `Foo`, a subclass of the registry class, used for
the case-normalization scenarios. -/
def fooCls : PClass :=
  { id := 13, mro := [13, 1, 0], modName := "test", name := "Foo", pluginName := none }

/-- Concrete class `Out` that is NOT a subclass of the registry class. -/
def clsOut : PClass :=
  { id := 20, mro := [20], modName := "test", name := "Out", pluginName := none }

/-- Entry point for the pre-existing candidate `pre`. -/
def preEp : EntryPoint :=
  { name := "pre", dist := "xblock", load := .ok clsPre }

/-- Entry point whose loader raises. -/
def badEp : EntryPoint :=
  { name := "bad", dist := "xblock", load := .error "boom" }

/-- Entry point loading the non-subclass `clsOut`. -/
def outEp : EntryPoint :=
  { name := "out", dist := "xblock", load := .ok clsOut }

/-- Entry point loading `clsA` under the name `g1`. -/
def g1Ep : EntryPoint :=
  { name := "g1", dist := "xblock", load := .ok clsA }

/-- Entry point loading `clsB` under the name `g2`. -/
def g2Ep : EntryPoint :=
  { name := "g2", dist := "xblock", load := .ok clsB }

/-- A provider with no registered candidates at all. -/
def env0 : Env :=
  { provider := fun _ _ => [], providerAll := fun _ => [] }

/-- A provider knowing exactly one candidate, `pre`, in category `cat`. -/
def envPre : Env :=
  { provider := fun cat idN =>
      if cat = "cat" then (if idN = "pre" then [preEp] else []) else [],
    providerAll := fun cat => if cat = "cat" then [preEp] else [] }

/-- A provider whose category `cat` holds one candidate, `out`, loading a
class that is not a subclass of the registry class. -/
def envOut : Env :=
  { provider := fun cat idN =>
      if cat = "cat" then (if idN = "out" then [outEp] else []) else [],
    providerAll := fun cat => if cat = "cat" then [outEp] else [] }

/-- A provider whose category `cat` enumerates `g1`, a failing candidate,
then `g2`. -/
def envMix : Env :=
  { provider := fun cat idN =>
      if cat = "cat" then
        (if idN = "g1" then [g1Ep] else if idN = "bad" then [badEp]
         else if idN = "g2" then [g2Ep] else [])
      else [],
    providerAll := fun cat => if cat = "cat" then [g1Ep, badEp, g2Ep] else [] }

/-- Runs one `load_class` lookup for `v` (over the empty provider) inside a
`register_temp_plugin` scope registering `class_` under `identifierOpt`,
and reports the lookup outcome observed inside the scope. -/
def resolve_in_temp (class_ : PClass) (identifierOpt : Option String) (v : String) :
    Except Err (Except Err PClass) :=
  (register_temp_plugin class_ identifierOpt "xblock"
    (fun R s =>
      let r := load_class env0 R v none none s
      (.ok r.1, R, r.2)) reg0 s0).1

/-- Inner unit of work of the nesting scenario: resolve `a` then `b` inside
the inner scope and report both outcomes. -/
def nested_inner : Registry → PState → Except Err (List (Except Err PClass)) × Registry × PState :=
  fun R s =>
    let r1 := load_class envPre R "a" none none s
    let r2 := load_class envPre R "b" none none r1.2
    (.ok [r1.1, r2.1], R, r2.2)

/-- Outer unit of work of the nesting scenario: run the inner override
registering `B`, then resolve `a` and `b` again in the outer scope,
reporting all four outcomes in order. -/
def nested_outer : Registry → PState → Except Err (List (Except Err PClass)) × Registry × PState :=
  fun R s =>
    let inner := register_temp_plugin clsB none "xblock" nested_inner R s
    let r3 := load_class envPre inner.2.1 "a" none none inner.2.2
    let r4 := load_class envPre inner.2.1 "b" none none r3.2
    ((match inner.1 with
      | .ok l => .ok (l ++ [r3.1, r4.1])
      | .error e => .error e), inner.2.1, r4.2)

/-- The whole nesting scenario: the outer override registers `A` around
`nested_outer`, starting from the clean state over the provider that knows
the pre-existing candidate `pre`. -/
def nested_run : Except Err (List (Except Err PClass)) × Registry × PState :=
  register_temp_plugin clsA none "xblock" nested_outer reg0 s0

/-- The yielded pair of one `load_classes` step, when the candidate loads. -/
def load_pair (ep : EntryPoint) : Option (String × PClass) :=
  match load_class_entry_point ep with
  | .ok c => some (ep.name, c)
  | .error _ => none

/-- A second registry class sharing nothing with `regCls` below the common
`Plugin` base: identity 2, also a direct subclass of identity 0. -/
def regCls2 : PClass :=
  { id := 2, mro := [2, 0], modName := "test", name := "OtherReg", pluginName := none }

/-- A second registry declaring the same `entry_point` string `cat` as
`reg0` but requiring `regCls2`. -/
def reg2 : Registry :=
  { cls := regCls2, entry_point := "cat", extra_entry_points := [] }

/-- `clsPre` as stamped by loading it through the entry point named `pre`. -/
def clsPreStamped : PClass :=
  { clsPre with pluginName := some "pre" }

/-- The state after `reg0` resolved `pre` once from the clean state. -/
def sCached : PState :=
  { cache := [(("cat", "pre"), clsPreStamped)], queries := 1 }

/-- Entry point registering `clsA` under the identifier `miss`. -/
def missEp : EntryPoint :=
  { name := "miss", dist := "xblock", load := .ok clsA }

/-- `reg0` after a candidate for `miss` has been registered. -/
def regMiss : Registry :=
  { reg0 with extra_entry_points := [("miss", missEp)] }

/-- Sequencing the loads of a list succeeds exactly with one loaded class
per entry point. -/
theorem sequence_loads_length : ∀ (l : List EntryPoint) (cs : List PClass),
    sequence_loads l = .ok cs → cs.length = l.length := by
  intro l
  induction l with
  | nil => intro cs h; simp [sequence_loads] at h; subst h; rfl
  | cons ep rest ih =>
    intro cs h
    simp only [sequence_loads] at h
    cases hl : ep.load with
    | error e => rw [hl] at h; exact absurd h (by simp)
    | ok c =>
      rw [hl] at h
      cases hr : sequence_loads rest with
      | error e => rw [hr] at h; exact absurd h (by simp)
      | ok cs2 =>
        rw [hr] at h
        injection h with h
        subst h
        simp [ih cs2 hr]

/-- Sequencing the loads of a list whose members all load successfully up
to a failing one propagates exactly that failure. -/
theorem sequence_loads_first_error : ∀ (pre : List EntryPoint) (bad : EntryPoint)
    (post : List EntryPoint) (err : String),
    (∀ ep ∈ pre, ∃ c, ep.load = .ok c) → bad.load = .error err →
    sequence_loads (pre ++ bad :: post) = .error err := by
  intro pre
  induction pre with
  | nil =>
    intro bad post err _ hbad
    simp [sequence_loads, hbad]
  | cons ep rest ih =>
    intro bad post err hpre hbad
    obtain ⟨c, hc⟩ := hpre ep (by simp)
    simp only [List.cons_append, sequence_loads, hc]
    have h2 := ih bad post err (fun e he => hpre e (by simp [he])) hbad
    simp only [List.append_eq]
    rw [h2]

/-- In silent mode the generator yields exactly the loadable candidates and
never ends with an exception. -/
theorem load_classes_go_silent : ∀ l : List EntryPoint,
    load_classes_go true l = (l.filterMap load_pair, none) := by
  intro l
  induction l with
  | nil => rfl
  | cons ep rest ih =>
    simp only [load_classes_go]
    cases h : load_class_entry_point ep with
    | ok c => simp [h, ih, load_pair, List.filterMap_cons]
    | error e => simp [h, ih, load_pair, List.filterMap_cons]

/-- In strict mode the generator yields the pairs before the first failing
candidate and then propagates that candidate's exception. -/
theorem load_classes_go_strict : ∀ (pre : List EntryPoint) (bad : EntryPoint)
    (post : List EntryPoint) (e : String),
    (∀ ep ∈ pre, ∃ c, load_class_entry_point ep = .ok c) →
    load_class_entry_point bad = .error e →
    load_classes_go false (pre ++ bad :: post) = (pre.filterMap load_pair, some e) := by
  intro pre
  induction pre with
  | nil =>
    intro bad post e _ hbad
    simp [load_classes_go, hbad]
  | cons ep rest ih =>
    intro bad post e hpre hbad
    obtain ⟨c, hc⟩ := hpre ep (by simp)
    simp only [List.cons_append, load_classes_go, hc]
    have h2 := ih bad post e (fun x hx => hpre x (by simp [hx])) hbad
    simp only [List.append_eq]
    rw [h2]
    simp [load_pair, hc, List.filterMap_cons]

/-- The success path of `load_class` on a cache miss: a unique candidate
that loads a subclass is returned and written to the cache. -/
theorem load_class_success (env : Env) (R : Registry) (i : String)
    (d : Option PClass) (s : PState) (ep : EntryPoint) (c : PClass)
    (hc : cacheGet (R.entry_point, lower i) s.cache = none)
    (hm : mergedCandidates env R (lower i) = [ep])
    (hl : load_class_entry_point ep = .ok c)
    (hs : issubclass c R.cls = true) :
    load_class env R i d none s
      = (.ok c,
         { s with
           queries := s.queries + 1
           cache := ((R.entry_point, lower i), c) :: s.cache }) := by
  unfold load_class
  rw [hc, Option.getD_none, hm]
  simp only [default_select, hl, hs, if_true]

/-- C3: for every scoped override (`register_temp_plugin`) around a unit of
work, the extra candidates list and the resolution cache after the scope
exits equal their content before the scope was entered, on every exit path
— whether the wrapped work returns a value or raises an error — and the
restoration is unconditional. -/
theorem c3_override_restores_state {α : Type} (class_ : PClass)
    (identifierOpt : Option String) (dist : String)
    (f : Registry → PState → Except Err α × Registry × PState)
    (R : Registry) (s : PState) :
    (register_temp_plugin class_ identifierOpt dist f R s).2.1.extra_entry_points
        = R.extra_entry_points
    ∧ (register_temp_plugin class_ identifierOpt dist f R s).2.2.cache = s.cache :=
  ⟨rfl, rfl⟩

/-- C5: nested scoped overrides compose LIFO.  Registering `A` in an outer
override and `B` in an inner override makes both resolvable inside the
inner scope; after the inner scope exits only `A` remains resolvable; after
the outer scope exits neither is resolvable, and the pre-existing candidate
`pre` resolves normally again. -/
theorem c5_nested_overrides_lifo :
    nested_run.1
      = .ok [.ok { clsA with pluginName := some "a" },
             .ok { clsB with pluginName := some "b" },
             .ok { clsA with pluginName := some "a" },
             .error (.pluginMissing "b")]
    ∧ nested_run.2.1 = reg0
    ∧ nested_run.2.2.cache = s0.cache
    ∧ (load_class envPre nested_run.2.1 "a" none none nested_run.2.2).1
        = .error (.pluginMissing "a")
    ∧ (load_class envPre nested_run.2.1 "b" none none nested_run.2.2).1
        = .error (.pluginMissing "b")
    ∧ (load_class envPre nested_run.2.1 "pre" none none nested_run.2.2).1
        = .ok clsPreStamped :=
  ⟨by decide, by decide, by decide, by decide, by decide, by decide⟩

/-- C1 counterexample: resolving `out` over `envOut` raises the type error,
yet a cache entry for its key has been written, and the stored type is not
a subclass of the registry class — so the cache is not left unchanged. -/
theorem c1_cex_type_mismatch_writes_cache :
    (load_class envOut reg0 "out" none none s0).1
        = .error (.typeError "TestReg" "out" "Out")
    ∧ (load_class envOut reg0 "out" none none s0).2.cache
        = [(("cat", "out"), { clsOut with pluginName := some "out" })]
    ∧ issubclass { clsOut with pluginName := some "out" } regCls = false :=
  ⟨by decide, by decide, by decide⟩

/-- C1 amended: when the selected candidate's loader succeeds but the
loaded type is not a subclass of the calling registry's class, `load_class`
raises the type-mismatch error, but only after writing the loaded type to
the cache under the key; the cache may therefore hold types that fail the
registry's base-class check. -/
theorem c1_amended_type_mismatch_cache_written (env : Env) (R : Registry)
    (i : String) (d : Option PClass) (s : PState) (ep : EntryPoint) (c : PClass)
    (hc : cacheGet (R.entry_point, lower i) s.cache = none)
    (hm : mergedCandidates env R (lower i) = [ep])
    (hl : load_class_entry_point ep = .ok c)
    (hs : issubclass c R.cls = false) :
    load_class env R i d none s
      = (.error (.typeError R.cls.name (lower i) c.name),
         { s with
           queries := s.queries + 1
           cache := ((R.entry_point, lower i), c) :: s.cache })
    ∧ cacheGet (R.entry_point, lower i) (load_class env R i d none s).2.cache = some c := by
  have h1 : load_class env R i d none s
      = (.error (.typeError R.cls.name (lower i) c.name),
         { s with
           queries := s.queries + 1
           cache := ((R.entry_point, lower i), c) :: s.cache }) := by
    unfold load_class
    rw [hc, Option.getD_none, hm]
    simp only [default_select, hl, hs]
    rfl
  refine ⟨h1, ?_⟩
  rw [h1]
  simp [cacheGet]

/-- C1 witness: the amended theorem evaluated at the concrete `out`
scenario. -/
theorem c1_amended_witness :
    cacheGet ("cat", lower "out") s0.cache = none
    ∧ load_class envOut reg0 "out" none none s0
        = (.error (.typeError "TestReg" "out" "Out"),
           { cache := [(("cat", "out"), { clsOut with pluginName := some "out" })],
             queries := 1 }) :=
  ⟨by decide,
   (c1_amended_type_mismatch_cache_written envOut reg0 "out" none s0 outEp
      { clsOut with pluginName := some "out" }
      (by decide) (by decide) (by decide) (by decide)).1.trans (by decide)⟩

/-- C2 counterexample: a candidate registered by a scoped override under
the explicit identifier `Foo` is found by none of `resolve("foo")`,
`resolve("Foo")`, `resolve("FOO")` — every lookup lower-cases and the
registration did not. -/
theorem c2_cex_explicit_identifier_not_normalized :
    resolve_in_temp fooCls (some "Foo") "foo" = .ok (.error (.pluginMissing "foo"))
    ∧ resolve_in_temp fooCls (some "Foo") "Foo" = .ok (.error (.pluginMissing "foo"))
    ∧ resolve_in_temp fooCls (some "Foo") "FOO" = .ok (.error (.pluginMissing "foo")) :=
  ⟨by decide, by decide, by decide⟩

/-- C2 amended: normalization is applied at lookup — identifiers differing
only in case give identical `load_class` behavior — and at the default
identifier of `register_temp_plugin` (derived from the class name), so a
candidate registered without an explicit identifier is found by every case
variant; but an explicit identifier argument is registered verbatim and
never lower-cased, so an override registered under `Foo` is not found by
any lookup. -/
theorem c2_amended_normalization_at_lookup_only :
    (∀ (env : Env) (R : Registry) (v w : String) (d : Option PClass)
        (sel : Option Selector) (s : PState),
        lower v = lower w → load_class env R v d sel s = load_class env R w d sel s)
    ∧ resolve_in_temp fooCls none "foo" = .ok (.ok { fooCls with pluginName := some "foo" })
    ∧ resolve_in_temp fooCls none "Foo" = .ok (.ok { fooCls with pluginName := some "foo" })
    ∧ resolve_in_temp fooCls none "FOO" = .ok (.ok { fooCls with pluginName := some "foo" }) := by
  refine ⟨?_, by decide, by decide, by decide⟩
  intro env R v w d sel s h
  unfold load_class
  rw [h]

/-- C2 witness: the lookup-normalization conjunct evaluated at `Foo` and
`foo`. -/
theorem c2_amended_witness :
    lower "Foo" = lower "foo"
    ∧ load_class env0 reg0 "Foo" none none s0 = load_class env0 reg0 "foo" none none s0 :=
  ⟨by decide,
   c2_amended_normalization_at_lookup_only.1 env0 reg0 "Foo" "foo" none none s0 (by decide)⟩

/-- C7 counterexample: with two conflicting candidates of which the second
fails to load, `default_select` raises the loader's exception, not
`AmbiguousPlugin`. -/
theorem c7_cex_loader_error_preempts_ambiguous :
    default_select "x" [g1Ep, badEp] = .error (.loadErr "boom")
    ∧ ¬ ∃ m : String, default_select "x" [g1Ep, badEp] = .error (.ambiguous m) := by
  refine ⟨by decide, ?_⟩
  rintro ⟨m, h⟩
  rw [show default_select "x" [g1Ep, badEp] = .error (.loadErr "boom") from by decide] at h
  injection h with h2
  exact Err.noConfusion h2

/-- C7 amended: the default selector raises `PluginMissingError` on the
empty list and returns the single candidate of a singleton list; on a list
with more than one entry whose loaders all succeed it raises
`AmbiguousPlugin`, whose retained payload is the formatted message naming
every conflicting candidate's loaded class (when a loader fails, that
failure propagates instead — see the counterexample). -/
theorem c7_amended_default_select_policy :
    (∀ i : String, default_select i [] = .error (.pluginMissing i))
    ∧ (∀ (i : String) (ep : EntryPoint), default_select i [ep] = .ok ep)
    ∧ (∀ (i : String) (e1 e2 : EntryPoint) (rest : List EntryPoint) (cs : List PClass),
        sequence_loads (e1 :: e2 :: rest) = .ok cs →
        default_select i (e1 :: e2 :: rest)
          = .error (.ambiguous ("Ambiguous entry points for " ++ e1.name ++ ": "
              ++ String.intercalate ", " (cs.map (fun c => c.modName ++ "." ++ c.name))))) := by
  refine ⟨fun i => rfl, fun i ep => rfl, ?_⟩
  intro i e1 e2 rest cs h
  simp only [default_select, ambiguous_plugin_error, h]

/-- C7 witness: the ambiguous branch of the amended theorem evaluated at
two loadable candidates. -/
theorem c7_amended_witness :
    sequence_loads [g1Ep, g2Ep] = .ok [clsA, clsB]
    ∧ default_select "x" [g1Ep, g2Ep]
        = .error (.ambiguous "Ambiguous entry points for g1: test.A, test.B") :=
  ⟨by decide,
   (c7_amended_default_select_policy.2.2 "x" g1Ep g2Ep [] [clsA, clsB] (by decide)).trans
     (by decide)⟩

/-- The fast path of `load_class`: a cached type that passes the subclass
check is returned with the state untouched. -/
theorem load_class_cache_hit (env : Env) (R : Registry) (i : String)
    (d : Option PClass) (sel : Option Selector) (s : PState) (c : PClass)
    (hc : cacheGet (R.entry_point, lower i) s.cache = some c)
    (hs : issubclass c R.cls = true) :
    load_class env R i d sel s = (.ok c, s) := by
  unfold load_class
  rw [hc]
  simp [hs]

/-- C4: when `resolve(I)` (no default, default selector) succeeds, an
immediately repeated call returns the identical resolved type and leaves
the state identical — so the second call is served from the cache and
queries the provider zero times — and the first call queried the provider
at most once, so at most one query happens across the two calls. -/
theorem c4_repeat_resolve_cache_hit (env : Env) (R : Registry) (i : String)
    (s : PState) (c : PClass) (s2 : PState)
    (h : load_class env R i none none s = (.ok c, s2)) :
    load_class env R i none none s2 = (.ok c, s2) ∧ s2.queries ≤ s.queries + 1 := by
  unfold load_class at h
  cases hcg : cacheGet (R.entry_point, lower i) s.cache with
  | some result =>
    rw [hcg] at h
    dsimp only at h
    by_cases hsub : issubclass result R.cls = true
    · rw [if_pos hsub] at h
      rw [Prod.mk.injEq] at h
      obtain ⟨h1, h2⟩ := h
      injection h1 with h1
      subst h1
      subst h2
      exact ⟨load_class_cache_hit env R i none none s result hcg hsub, Nat.le_succ _⟩
    · rw [if_neg hsub] at h
      exact absurd h (by simp)
  | none =>
    rw [hcg] at h
    dsimp only at h
    simp only [Option.getD_none] at h
    cases hsel : default_select (lower i) (mergedCandidates env R (lower i)) with
    | error e =>
      rw [hsel] at h
      cases e with
      | pluginMissing m => simp at h
      | ambiguous m => simp at h
      | typeError a b cn => simp at h
      | loadErr e2 => simp at h
    | ok ep =>
      rw [hsel] at h
      dsimp only at h
      cases hl : load_class_entry_point ep with
      | error e2 =>
        rw [hl] at h
        simp at h
      | ok class_ =>
        rw [hl] at h
        dsimp only at h
        by_cases hsub : issubclass class_ R.cls = true
        · rw [if_pos hsub] at h
          rw [Prod.mk.injEq] at h
          obtain ⟨h1, h2⟩ := h
          injection h1 with h1
          subst h1
          subst h2
          constructor
          · refine load_class_cache_hit env R i none none _ class_ ?_ hsub
            simp [cacheGet]
          · exact Nat.le_refl _
        · rw [if_neg hsub] at h
          exact absurd h (by simp)

/-- C4 witness: the theorem evaluated at the `pre` candidate from the clean
state. -/
theorem c4_repeat_resolve_witness :
    load_class envPre reg0 "pre" none none s0 = (.ok clsPreStamped, sCached)
    ∧ (load_class envPre reg0 "pre" none none sCached = (.ok clsPreStamped, sCached)
       ∧ sCached.queries ≤ s0.queries + 1) :=
  ⟨by decide, c4_repeat_resolve_cache_hit envPre reg0 "pre" s0 clsPreStamped sCached (by decide)⟩

/-- C8: `load_classes` in silent mode yields exactly the (name, type) pairs
of the candidates that load successfully, skipping failing candidates
without raising; in strict mode the first failing candidate's exception
propagates and no pairs after that point are yielded. -/
theorem c8_load_classes_failure_modes (env : Env) (R : Registry) :
    load_classes env R true = ((all_candidates env R).filterMap load_pair, none)
    ∧ (∀ (pre : List EntryPoint) (bad : EntryPoint) (post : List EntryPoint) (e : String),
        all_candidates env R = pre ++ bad :: post →
        (∀ ep ∈ pre, ∃ c, load_class_entry_point ep = .ok c) →
        load_class_entry_point bad = .error e →
        load_classes env R false = (pre.filterMap load_pair, some e)) := by
  constructor
  · exact load_classes_go_silent (all_candidates env R)
  · intro pre bad post e hsplit hpre hbad
    unfold load_classes
    rw [hsplit]
    exact load_classes_go_strict pre bad post e hpre hbad

/-- C8 witness: the theorem evaluated over the category holding `g1`, a
failing candidate, and `g2`. -/
theorem c8_load_classes_witness :
    load_classes envMix reg0 true
      = ([("g1", { clsA with pluginName := some "g1" }),
          ("g2", { clsB with pluginName := some "g2" })], none)
    ∧ load_classes envMix reg0 false
      = ([("g1", { clsA with pluginName := some "g1" })], some "boom") := by
  constructor
  · exact (c8_load_classes_failure_modes envMix reg0).1.trans (by decide)
  · refine ((c8_load_classes_failure_modes envMix reg0).2 [g1Ep] badEp [g2Ep] "boom"
      (by decide) ?_ (by decide)).trans (by decide)
    intro ep hep
    rw [List.mem_singleton] at hep
    subst hep
    exact ⟨{ clsA with pluginName := some "g1" }, by decide⟩

/-- C6: with zero matching candidates for an identifier (and no cache
entry), `resolve` raises `PluginMissingError` carrying the (normalized)
identifier when no default is supplied; with a default `D` it returns `D`
and writes nothing to the cache, so a matching candidate registered later
(same entry point, same base class) is still found by a subsequent
`resolve`. -/
theorem c6_zero_candidates_default_fallback (env : Env) (R : Registry)
    (i : String) (s : PState)
    (hc : cacheGet (R.entry_point, lower i) s.cache = none)
    (hm : mergedCandidates env R (lower i) = []) :
    load_class env R i none none s
      = (.error (.pluginMissing (lower i)), { s with queries := s.queries + 1 })
    ∧ (∀ D : PClass, load_class env R i (some D) none s
        = (.ok D, { s with queries := s.queries + 1 }))
    ∧ (∀ (D : PClass) (R2 : Registry) (ep : EntryPoint) (c : PClass),
        R2.entry_point = R.entry_point →
        mergedCandidates env R2 (lower i) = [ep] →
        load_class_entry_point ep = .ok c →
        issubclass c R2.cls = true →
        load_class env R2 i none none (load_class env R i (some D) none s).2
          = (.ok c,
             { cache := ((R2.entry_point, lower i), c) :: s.cache,
               queries := s.queries + 2 })) := by
  have h1 : load_class env R i none none s
      = (.error (.pluginMissing (lower i)), { s with queries := s.queries + 1 }) := by
    unfold load_class
    rw [hc, Option.getD_none, hm]
    simp [default_select]
  have h2 : ∀ D : PClass, load_class env R i (some D) none s
      = (.ok D, { s with queries := s.queries + 1 }) := by
    intro D
    unfold load_class
    rw [hc, Option.getD_none, hm]
    simp [default_select]
  refine ⟨h1, h2, ?_⟩
  intro D R2 ep c hent hm2 hl hsub
  rw [h2 D]
  have hc2 : cacheGet (R2.entry_point, lower i)
      (PState.cache { s with queries := s.queries + 1 }) = none := by
    rw [hent]
    exact hc
  have := load_class_success env R2 i none { s with queries := s.queries + 1 } ep c hc2 hm2 hl hsub
  rw [this]

/-- C6 witness: the theorem evaluated at the identifier `miss` over the
empty provider, with the later registration `regMiss`. -/
theorem c6_zero_candidates_witness :
    cacheGet ("cat", lower "miss") s0.cache = none
    ∧ mergedCandidates env0 reg0 (lower "miss") = []
    ∧ load_class env0 reg0 "miss" none none s0
        = (.error (.pluginMissing "miss"), { cache := [], queries := 1 })
    ∧ load_class env0 reg0 "miss" (some clsPre) none s0
        = (.ok clsPre, { cache := [], queries := 1 })
    ∧ load_class env0 regMiss "miss" none none
          (load_class env0 reg0 "miss" (some clsPre) none s0).2
        = (.ok { clsA with pluginName := some "miss" },
           { cache := [(("cat", "miss"), { clsA with pluginName := some "miss" })],
             queries := 2 }) := by
  have h := c6_zero_candidates_default_fallback env0 reg0 "miss" s0 (by decide) (by decide)
  refine ⟨by decide, by decide, h.1.trans (by decide), (h.2.1 clsPre).trans (by decide), ?_⟩
  exact (h.2.2 clsPre regMiss missEp { clsA with pluginName := some "miss" }
    (by decide) (by decide) (by decide) (by decide)).trans (by decide)

/-- C9: the subtype check runs on every `load_class` call, cache hits
included.  A call that returns normally (with any default obeying the
declared type `type[t.Self]`) always returns a subclass of the calling
class, and when the shared cache already holds, under this registry's
entry-point string, a type that is not a subclass of this registry's class
— as happens when another `Plugin` subclass with the same `entry_point`
cached it — the call raises the type-mismatch error instead of returning
the cached type. -/
theorem c9_subclass_check_every_call (env : Env) (R : Registry) (i : String)
    (d : Option PClass) (sel : Option Selector) (s : PState) :
    (∀ (c : PClass) (s2 : PState),
        (∀ D : PClass, d = some D → issubclass D R.cls = true) →
        load_class env R i d sel s = (.ok c, s2) →
        issubclass c R.cls = true)
    ∧ (∀ ch : PClass,
        cacheGet (R.entry_point, lower i) s.cache = some ch →
        issubclass ch R.cls = false →
        load_class env R i d sel s
          = (.error (.typeError R.cls.name (lower i) ch.name), s)) := by
  constructor
  · intro c s2 hD h
    unfold load_class at h
    cases hcg : cacheGet (R.entry_point, lower i) s.cache with
    | some result =>
      rw [hcg] at h
      dsimp only at h
      by_cases hsub : issubclass result R.cls = true
      · rw [if_pos hsub] at h
        rw [Prod.mk.injEq] at h
        obtain ⟨h1, _⟩ := h
        injection h1 with h1
        subst h1
        exact hsub
      · rw [if_neg hsub] at h
        exact absurd h (by simp)
    | none =>
      rw [hcg] at h
      dsimp only at h
      cases hsel : (sel.getD default_select) (lower i) (mergedCandidates env R (lower i)) with
      | error e =>
        rw [hsel] at h
        cases e with
        | pluginMissing m =>
          cases hd : d with
          | some D =>
            rw [hd] at h
            dsimp only at h
            rw [Prod.mk.injEq] at h
            obtain ⟨h1, _⟩ := h
            injection h1 with h1
            subst h1
            exact hD _ hd
          | none =>
            rw [hd] at h
            simp at h
        | ambiguous m => simp at h
        | typeError a b cn => simp at h
        | loadErr e2 => simp at h
      | ok ep =>
        rw [hsel] at h
        dsimp only at h
        cases hl : load_class_entry_point ep with
        | error e2 =>
          rw [hl] at h
          simp at h
        | ok class_ =>
          rw [hl] at h
          dsimp only at h
          by_cases hsub : issubclass class_ R.cls = true
          · rw [if_pos hsub] at h
            rw [Prod.mk.injEq] at h
            obtain ⟨h1, _⟩ := h
            injection h1 with h1
            subst h1
            exact hsub
          · rw [if_neg hsub] at h
            exact absurd h (by simp)
  · intro ch hcg hsub
    unfold load_class
    rw [hcg]
    simp [hsub]

/-- C9 witness: a type cached through `reg0` under the shared key makes the
second registry `reg2`, which declares the same entry-point string, raise
the type-mismatch error on a cache hit. -/
theorem c9_subclass_check_witness :
    cacheGet ("cat", lower "pre") sCached.cache = some clsPreStamped
    ∧ issubclass clsPreStamped regCls2 = false
    ∧ load_class envPre reg2 "pre" none none sCached
        = (.error (.typeError "OtherReg" "pre" "Pre"), sCached) := by
  refine ⟨by decide, by decide, ?_⟩
  exact ((c9_subclass_check_every_call envPre reg2 "pre" none none sCached).2 clsPreStamped
    (by decide) (by decide)).trans (by decide)

/-- C10: constructing `AmbiguousPluginError` invokes the loader of every
conflicting candidate (a loaded class per candidate goes into the message)
and the error retains only the formatted message; if any conflicting
candidate's loader raises while the message is built, that loader's
exception propagates — out of `default_select` and out of `load_class` —
in place of `AmbiguousPlugin`. -/
theorem c10_ambiguous_error_construction (i : String) (e1 e2 : EntryPoint)
    (rest : List EntryPoint) :
    (∀ cs : List PClass, sequence_loads (e1 :: e2 :: rest) = .ok cs →
        cs.length = (e1 :: e2 :: rest).length
        ∧ default_select i (e1 :: e2 :: rest)
            = .error (.ambiguous ("Ambiguous entry points for " ++ e1.name ++ ": "
                ++ String.intercalate ", " (cs.map (fun c => c.modName ++ "." ++ c.name)))))
    ∧ (∀ (pre : List EntryPoint) (bad : EntryPoint) (post : List EntryPoint) (err : String),
        e1 :: e2 :: rest = pre ++ bad :: post →
        (∀ ep ∈ pre, ∃ c, ep.load = .ok c) →
        bad.load = .error err →
        default_select i (e1 :: e2 :: rest) = .error (.loadErr err)
        ∧ (∀ (env : Env) (R : Registry) (v : String) (d : Option PClass) (s : PState),
            cacheGet (R.entry_point, lower v) s.cache = none →
            mergedCandidates env R (lower v) = e1 :: e2 :: rest →
            load_class env R v d none s
              = (.error (.loadErr err), { s with queries := s.queries + 1 }))) := by
  constructor
  · intro cs h
    exact ⟨sequence_loads_length _ cs h,
           by simp only [default_select, ambiguous_plugin_error, h]⟩
  · intro pre bad post err hsplit hpre hbad
    have hseq : sequence_loads (e1 :: e2 :: rest) = .error err := by
      rw [hsplit]
      exact sequence_loads_first_error pre bad post err hpre hbad
    have hds : default_select i (e1 :: e2 :: rest) = .error (.loadErr err) := by
      simp only [default_select, ambiguous_plugin_error, hseq]
    refine ⟨hds, ?_⟩
    intro env R v d s hc hm
    have hds2 : default_select (lower v) (e1 :: e2 :: rest) = .error (.loadErr err) := by
      simp only [default_select, ambiguous_plugin_error, hseq]
    unfold load_class
    rw [hc, Option.getD_none, hm, hds2]

/-- C10 witness: the propagation branch evaluated at a loadable candidate
followed by a failing one. -/
theorem c10_ambiguous_error_witness :
    sequence_loads [g1Ep, badEp] = .error "boom"
    ∧ default_select "y" [g1Ep, badEp] = .error (.loadErr "boom") := by
  refine ⟨by decide, ?_⟩
  exact ((c10_ambiguous_error_construction "y" g1Ep badEp []).2 [g1Ep] badEp [] "boom" rfl
    (by
      intro ep hep
      rw [List.mem_singleton] at hep
      subst hep
      exact ⟨clsA, by decide⟩)
    (by decide)).1

end XBlockPlugin
